import Mathlib

/-!
Verification of the EBMS browser-test automation suite's core mechanisms:
the page-object factory cache (`PageFactory` in `pages/page.factory.ts`),
the synthetic test-data generators (`helpers/test-data.helper.ts`), the
authentication helpers and fixtures (`helpers/auth.helper.ts`,
`fixtures/auth.fixture.ts`), and the base page-object soft checks
(`pages/base.page.ts`).

Modelling conventions:
- JavaScript object references are modelled by natural-number ids drawn
  from a monotone allocator (`nextId`): a `new` expression yields a fresh
  id, never reused, so id equality is reference equality.
- The ES `Map` held by `PageFactory.pageInstances` is modelled as an
  association list in insertion order with `Map.get`/`Map.set`/
  `Map.delete` semantics (`mapLookup`/`mapSet`/`mapDelete`).
- Each `Math.random()` draw is modelled by an arbitrary natural number
  reduced modulo the bound used at that call site (`Math.floor(r * n)`
  ranges over exactly the residues modulo `n`).
- `async` functions that can reject are modelled as `Except String`
  values; a `try`/`catch` that converts failure to a value becomes a
  total function by pattern matching on the `Except`.
-/

namespace EBMS

/-! ## Page factory (`PageFactory`, pages/page.factory.ts) -/

/-- `Map.get` on an insertion-ordered association list. -/
def mapLookup : List (String × Nat) → String → Option Nat
  | [], _ => none
  | (k', v') :: rest, k => if k' = k then some v' else mapLookup rest k

/-- `Map.set`: update in place when the key is present, else append. -/
def mapSet : List (String × Nat) → String → Nat → List (String × Nat)
  | [], k, v => [(k, v)]
  | (k', v') :: rest, k, v =>
      if k' = k then (k, v) :: rest else (k', v') :: mapSet rest k v

/-- `Map.delete`: remove the (unique) entry with the given key. -/
def mapDelete : List (String × Nat) → String → List (String × Nat)
  | [], _ => []
  | (k', v') :: rest, k => if k' = k then rest else (k', v') :: mapDelete rest k

/-- `Map.has`. -/
def mapHas (m : List (String × Nat)) (k : String) : Bool :=
  (mapLookup m k).isSome

/-- State of the static `PageFactory` class: the `pageInstances` map plus
the allocator for fresh object references. -/
structure FactoryState where
  cache : List (String × Nat)
  nextId : Nat
deriving Repr, DecidableEq

/-- The cache key: `` `${pageType.name}-${page.url()}` ``. -/
def pageKey (className url : String) : String :=
  className ++ "-" ++ url

/-- `PageFactory.createPage`: if the key is absent, construct a fresh
instance under that key; return `get(pageKey)` (an `Option`, matching the
`as T` cast of a possibly-missing entry). -/
def createPage (className url : String) (s : FactoryState) :
    Option Nat × FactoryState :=
  let key := pageKey className url
  let s' : FactoryState :=
    if mapHas s.cache key then s
    else ⟨mapSet s.cache key s.nextId, s.nextId + 1⟩
  (mapLookup s'.cache key, s')

/-- `PageFactory.clearCache`: `this.pageInstances.clear()`. The reference
allocator is process-global, so it is untouched. -/
def clearCache (s : FactoryState) : FactoryState :=
  ⟨[], s.nextId⟩

/-- `PageFactory.removePageInstance(pageType, url)`. -/
def removePageInstance (pageType url : String) (s : FactoryState) :
    FactoryState :=
  ⟨mapDelete s.cache (pageKey pageType url), s.nextId⟩

/-- Well-formedness of the factory state: every cached reference was
allocated in the past, and both keys and references are pairwise
distinct. This holds for the initial empty state and is preserved by
every factory operation. -/
def wf (s : FactoryState) : Prop :=
  (∀ e ∈ s.cache, e.2 < s.nextId) ∧
    (s.cache.map Prod.fst).Nodup ∧ (s.cache.map Prod.snd).Nodup

instance : DecidablePred wf := fun s => by
  unfold wf; infer_instance

/-! ## Heap model for cache snapshots (`getCachedInstances`) -/

/-- A heap of ES `Map` objects; addresses are list indices and allocation
appends at the end. -/
structure Heap where
  maps : List (List (String × Nat))
deriving Repr

/-- Dereference a map address. -/
def Heap.read (h : Heap) (r : Nat) : List (String × Nat) :=
  h.maps.getD r []

/-- Overwrite the map stored at an address. -/
def Heap.write (h : Heap) (r : Nat) (m : List (String × Nat)) : Heap :=
  ⟨h.maps.set r m⟩

/-- `PageFactory.getCachedInstances`: `return new Map(this.pageInstances)`
— allocates a fresh `Map` holding a copy of the internal entries and
returns its address. -/
def getCachedInstances (h : Heap) (rInt : Nat) : Nat × Heap :=
  (h.maps.length, ⟨h.maps ++ [h.read rInt]⟩)

/-- A mutation a caller can apply to a `Map` it holds. -/
inductive MapOp where
  | set (k : String) (v : Nat)
  | del (k : String)
deriving Repr

/-- Apply one mutation to a map value. -/
def applyOp (m : List (String × Nat)) : MapOp → List (String × Nat)
  | .set k v => mapSet m k v
  | .del k => mapDelete m k

/-- Apply one mutation to the map stored at an address. -/
def mutateAt (h : Heap) (r : Nat) (op : MapOp) : Heap :=
  h.write r (applyOp (h.read r) op)

/-- Apply a sequence of mutations to the map stored at an address. -/
def mutateAll (h : Heap) (r : Nat) (ops : List MapOp) : Heap :=
  ops.foldl (fun h' op => mutateAt h' r op) h

/-! ## Test-data generators (helpers/test-data.helper.ts) -/

/-- Fixed first-name candidate pool. -/
def firstNames : List String :=
  ["John", "Jane", "Michael", "Sarah", "David", "Emily", "James", "Emma",
   "Robert", "Olivia", "William", "Sophia", "Richard", "Isabella", "Thomas",
   "Mia", "Charles", "Charlotte", "Daniel", "Amelia", "Matthew", "Harper",
   "Juan", "Maria", "Jose", "Ana", "Carlos", "Sofia", "Miguel", "Isabella"]

/-- Fixed last-name candidate pool. -/
def lastNames : List String :=
  ["Smith", "Johnson", "Williams", "Brown", "Jones", "Garcia", "Miller",
   "Davis", "Rodriguez", "Martinez", "Hernandez", "Lopez", "Gonzalez",
   "Wilson", "Anderson", "Thomas", "Taylor", "Moore", "Jackson", "Martin",
   "Dela Cruz", "Santos", "Reyes", "Cruz", "Bautista", "Ocampo", "Garcia"]

/-- Fixed email-domain candidate pool. -/
def domains : List String :=
  ["example.com", "test.com", "mail.com", "email.com", "sample.com"]

/-- `generateFirstName`: uniform pick from the pool; the random draw `r`
stands for the value of `Math.floor(Math.random() * length)` via `r %
length`. -/
def generateFirstName (r : Nat) : String :=
  firstNames.getD (r % firstNames.length) ""

/-- `generateLastName`. -/
def generateLastName (r : Nat) : String :=
  lastNames.getD (r % lastNames.length) ""

/-- Loop body of `generateRandomNumber`: appends one decimal digit per
iteration; `g i` is the `i`-th `Math.random()` draw. -/
def generateRandomNumberAux (g : Nat → Nat) : Nat → Nat → String
  | _, 0 => ""
  | i, n + 1 => toString (g i % 10) ++ generateRandomNumberAux g (i + 1) n

/-- `generateRandomNumber(length)`: a string of `length` random decimal
digits. -/
def generateRandomNumber (g : Nat → Nat) (len : Nat) : String :=
  generateRandomNumberAux g 0 len

/-- `.toLowerCase().replace(/\s+/g, '')` applied to a name. -/
def cleanName (s : String) : String :=
  ⟨(s.data.map Char.toLower).filter fun c => !c.isWhitespace⟩

/-- `generateEmail(firstName?, lastName?)`; the `if (firstName &&
lastName)` truthiness test is: both present and non-empty. -/
def generateEmail (rDomain : Nat) (g : Nat → Nat)
    (firstName lastName : Option String) : String :=
  let domain := domains.getD (rDomain % domains.length) ""
  match firstName, lastName with
  | some f, some l =>
      if f ≠ "" ∧ l ≠ "" then
        cleanName f ++ "." ++ cleanName l ++ generateRandomNumber g 3
          ++ "@" ++ domain
      else "user" ++ generateRandomNumber g 6 ++ "@" ++ domain
  | _, _ => "user" ++ generateRandomNumber g 6 ++ "@" ++ domain

/-- `generatePhilippineContactNumber`: `'9'` followed by nine random
digits. -/
def generatePhilippineContactNumber (g : Nat → Nat) : String :=
  "9" ++ generateRandomNumber g 9

/-- The `UserTestData` record produced by `generateUserData`; the two
optional interface fields stay `Option`-valued. -/
structure UserTestData where
  firstName : String
  lastName : String
  email : String
  contactNumber : String
  permissionGroup : Option String
  userStatus : Option String
deriving Repr, DecidableEq

/-- A `Partial<UserTestData>` override object. -/
structure UserOverrides where
  firstName : Option String
  lastName : Option String
  email : Option String
  contactNumber : Option String
  permissionGroup : Option String
  userStatus : Option String
deriving Repr, DecidableEq

/-- The empty override object (every field absent). -/
def noOverrides : UserOverrides :=
  ⟨none, none, none, none, none, none⟩

/-- JavaScript `o?.field || fallback` for string fields: an absent field
or the (falsy) empty string falls back. -/
def jsOr (o : Option String) (fallback : String) : String :=
  match o with
  | some s => if s = "" then fallback else s
  | none => fallback

/-- The independent `Math.random()` draws consumed by one
`generateUserData` call, one slot per call site. -/
structure Rng where
  rFirst : Nat
  rLast : Nat
  rDomain : Nat
  gEmail : Nat → Nat
  gContact : Nat → Nat

/-- `generateUserData(overrides?)`. -/
def generateUserData (rng : Rng) (overrides : Option UserOverrides) :
    UserTestData :=
  let o := overrides.getD noOverrides
  let firstName := jsOr o.firstName (generateFirstName rng.rFirst)
  let lastName := jsOr o.lastName (generateLastName rng.rLast)
  { firstName := firstName
    lastName := lastName
    email := jsOr o.email
      (generateEmail rng.rDomain rng.gEmail (some firstName) (some lastName))
    contactNumber := jsOr o.contactNumber
      (generatePhilippineContactNumber rng.gContact)
    permissionGroup := o.permissionGroup
    userStatus := some (jsOr o.userStatus "Active") }

/-- A string has `local@domain` shape: a non-empty `@`-free local part,
an `@`, and a non-empty `@`-free domain. -/
def emailShape (s : String) : Prop :=
  ∃ l d : String, l ≠ "" ∧ d ≠ "" ∧ '@' ∉ l.data ∧ '@' ∉ d.data ∧
    s = l ++ "@" ++ d

/-! ## Soft visibility check (`BasePage.isElementVisible`,
pages/base.page.ts) -/

/-- Modelled behaviour of Playwright's
`expect(locator).toBeVisible({ timeout })`: the element becomes visible
`visibleAt` milliseconds after the check starts (`none` = never); the
promise resolves iff that happens within `timeout`, else it rejects with
a timeout error. -/
def expectToBeVisible (visibleAt : Option Nat) (timeout : Nat) :
    Except String Unit :=
  match visibleAt with
  | some t => if t ≤ timeout then .ok () else .error "TimeoutError"
  | none => .error "TimeoutError"

/-- The `try` body of `BasePage.isElementVisible`: run the visibility
expectation with the fixed 1000 ms timeout, then return `true`. -/
def isElementVisibleBody (visibleAt : Option Nat) : Except String Bool :=
  (expectToBeVisible visibleAt 1000).map fun _ => true

/-- `BasePage.isElementVisible`: the `catch` arm converts any rejection
into `false`. -/
def isElementVisible (visibleAt : Option Nat) : Bool :=
  match isElementVisibleBody visibleAt with
  | .ok b => b
  | .error _ => false

/-! ## Authentication helpers and fixture (helpers/auth.helper.ts,
fixtures/auth.fixture.ts) -/

/-- `isUserLoggedIn`: try `expect(userEmailElement).toBeVisible()` and
return `true`; any rejection is caught and yields `false`. The outcome
of the awaited expectation is the parameter. -/
def isUserLoggedIn (emailSignal : Except String Unit) : Bool :=
  match emailSignal with
  | .ok _ => true
  | .error _ => false

/-- Environment of one `logoutUser` call: outcomes of the three awaited
browser operations inside its `try` block. -/
structure LogoutEnv where
  buttonVisible : Except String Bool
  clickOutcome : Except String Unit
  redirectOutcome : Except String Unit

/-- The `try` body of `logoutUser`: read the logout button's visibility;
if visible, click it and await the redirect to `/login`. -/
def logoutBody (env : LogoutEnv) : Except String Unit :=
  match env.buttonVisible with
  | .error e => .error e
  | .ok false => .ok ()
  | .ok true =>
      match env.clickOutcome with
      | .error e => .error e
      | .ok _ => env.redirectOutcome

/-- `logoutUser`: the `catch` arm logs `console.warn(...)` and returns
normally. The result is the list of warnings logged. -/
def logoutUser (env : LogoutEnv) : List String :=
  match logoutBody env with
  | .ok _ => []
  | .error e => ["Logout failed or user was not logged in: " ++ e]

/-- The hard error thrown by the `authenticatedPage` fixture when the
post-login check fails. -/
def authFailMsg : String := "Failed to authenticate user before test"

/-- Observable trace of one `authenticatedPage` fixture execution. -/
structure FixtureTrace where
  bodyRan : Bool
  outcome : Except String Unit
  warnings : List String
deriving Repr

/-- The `authenticatedPage` fixture: await `loginUser`; check
`isUserLoggedIn` and throw before `use(page)` if it is false; otherwise
run the test body via `use(page)` and finish with `logoutUser`. -/
def authenticatedPageFixture (loginOutcome : Except String Unit)
    (emailSignal : Except String Unit) (bodyOutcome : Except String Unit)
    (env : LogoutEnv) : FixtureTrace :=
  match loginOutcome with
  | .error e => ⟨false, .error e, []⟩
  | .ok _ =>
      if isUserLoggedIn emailSignal then
        ⟨true, bodyOutcome, logoutUser env⟩
      else
        ⟨false, .error authFailMsg, []⟩

/-! ## `LoginPage.toggleRememberMe` (pages/auth/login.page.ts) -/

/-- `toggleRememberMe(checked)`: read `isChecked()`; click (which flips
the checkbox) only when it differs from the desired state. Returns the
resulting checkbox state and whether a click was issued. -/
def toggleRememberMe (checked : Bool) (isChecked : Bool) : Bool × Bool :=
  if isChecked != checked then (!isChecked, true) else (isChecked, false)

/-- A fixed random source used to instantiate universally quantified
statements at a concrete input. -/
def rngZero : Rng :=
  ⟨0, 0, 0, fun _ => 0, fun _ => 0⟩

/-! ## Lemmas about strings and the association-list map -/

theorem data_append (s t : String) : (s ++ t).data = s.data ++ t.data := rfl

theorem eq_of_data_eq {s t : String} (h : s.data = t.data) : s = t :=
  String.toList_inj.mp h

theorem pageKey_data (c u : String) :
    (pageKey c u).data = c.data ++ '-' :: u.data := by
  show (c.data ++ ['-']) ++ u.data = c.data ++ '-' :: u.data
  simp

theorem pageKey_inj_class {a b u : String} (h : pageKey a u = pageKey b u) :
    a = b := by
  have hd := congrArg String.data h
  rw [pageKey_data, pageKey_data] at hd
  exact eq_of_data_eq (List.append_cancel_right hd)

theorem pageKey_inj_url {c u₁ u₂ : String} (h : pageKey c u₁ = pageKey c u₂) :
    u₁ = u₂ := by
  have hd := congrArg String.data h
  rw [pageKey_data, pageKey_data] at hd
  exact eq_of_data_eq (List.cons.inj (List.append_cancel_left hd)).2

theorem mapLookup_mem : ∀ {m : List (String × Nat)} {k : String} {v : Nat},
    mapLookup m k = some v → (k, v) ∈ m := by
  intro m
  induction m with
  | nil => intro k v h; simp [mapLookup] at h
  | cons e rest ih =>
      intro k v h
      obtain ⟨k', v'⟩ := e
      by_cases hk : k' = k
      · subst hk
        simp [mapLookup] at h
        subst h
        exact List.mem_cons_self _ _
      · rw [mapLookup, if_neg hk] at h
        exact List.mem_cons_of_mem _ (ih h)

theorem mapLookup_set_self (m : List (String × Nat)) (k : String) (v : Nat) :
    mapLookup (mapSet m k v) k = some v := by
  induction m with
  | nil => simp [mapSet, mapLookup]
  | cons e rest ih =>
      obtain ⟨k', v'⟩ := e
      by_cases hk : k' = k
      · simp [mapSet, hk, mapLookup]
      · simp [mapSet, hk, mapLookup, ih]

theorem mapLookup_set_ne (m : List (String × Nat)) {q k : String} (v : Nat)
    (h : q ≠ k) : mapLookup (mapSet m k v) q = mapLookup m q := by
  induction m with
  | nil => simp [mapSet, mapLookup, Ne.symm h]
  | cons e rest ih =>
      obtain ⟨k', v'⟩ := e
      by_cases hk : k' = k
      · subst hk
        simp [mapSet, mapLookup, Ne.symm h]
      · simp [mapSet, hk, mapLookup, ih]

theorem mapSet_append {m : List (String × Nat)} {k : String} (v : Nat)
    (h : mapLookup m k = none) : mapSet m k v = m ++ [(k, v)] := by
  induction m with
  | nil => rfl
  | cons e rest ih =>
      obtain ⟨k', v'⟩ := e
      by_cases hk : k' = k
      · rw [mapLookup, if_pos hk] at h; cases h
      · rw [mapLookup, if_neg hk] at h
        simp [mapSet, hk, ih h]

theorem lookup_none_not_mem_fst : ∀ {m : List (String × Nat)} {k : String},
    mapLookup m k = none → k ∉ m.map Prod.fst := by
  intro m
  induction m with
  | nil => intro k _ hk; simp at hk
  | cons e rest ih =>
      intro k h hk
      obtain ⟨k', v'⟩ := e
      by_cases he : k' = k
      · rw [mapLookup, if_pos he] at h; cases h
      · rw [mapLookup, if_neg he] at h
        rw [List.map_cons] at hk
        rcases List.mem_cons.mp hk with hk | hk
        · exact he hk.symm
        · exact ih h hk

/-! ## Lemmas about the factory -/

theorem wf_lookup_lt {s : FactoryState} {k : String} {v : Nat} (hw : wf s)
    (h : mapLookup s.cache k = some v) : v < s.nextId :=
  hw.1 (k, v) (mapLookup_mem h)

theorem wf_lookup_inj {s : FactoryState} {k₁ k₂ : String} {v₁ v₂ : Nat}
    (hw : wf s) (h₁ : mapLookup s.cache k₁ = some v₁)
    (h₂ : mapLookup s.cache k₂ = some v₂) (hk : k₁ ≠ k₂) : v₁ ≠ v₂ := by
  intro hv
  subst hv
  have hm₁ := mapLookup_mem h₁
  have hm₂ := mapLookup_mem h₂
  have := List.inj_on_of_nodup_map hw.2.2 hm₁ hm₂ rfl
  exact hk (congrArg Prod.fst this)

theorem createPage_of_present {c u : String} {s : FactoryState} {v : Nat}
    (h : mapLookup s.cache (pageKey c u) = some v) :
    createPage c u s = (some v, s) := by
  simp [createPage, mapHas, h]

theorem createPage_of_absent {c u : String} {s : FactoryState}
    (h : mapLookup s.cache (pageKey c u) = none) :
    createPage c u s =
      (some s.nextId, ⟨mapSet s.cache (pageKey c u) s.nextId, s.nextId + 1⟩) := by
  simp [createPage, mapHas, h, mapLookup_set_self]

theorem createPage_lookup (c u : String) (s : FactoryState) :
    mapLookup (createPage c u s).2.cache (pageKey c u) = (createPage c u s).1 := by
  cases h : mapLookup s.cache (pageKey c u) with
  | none => rw [createPage_of_absent h]; exact mapLookup_set_self _ _ _
  | some v => rw [createPage_of_present h]; exact h

theorem createPage_isSome (c u : String) (s : FactoryState) :
    (createPage c u s).1.isSome := by
  cases h : mapLookup s.cache (pageKey c u) with
  | none => rw [createPage_of_absent h]; rfl
  | some v => rw [createPage_of_present h]; rfl

theorem createPage_preserves {s : FactoryState} {k : String} {v : Nat}
    (c u : String) (h : mapLookup s.cache k = some v) :
    mapLookup (createPage c u s).2.cache k = some v := by
  cases hq : mapLookup s.cache (pageKey c u) with
  | some w => rw [createPage_of_present hq]; exact h
  | none =>
      have hk : k ≠ pageKey c u := by
        intro he; subst he; rw [h] at hq; cases hq
      rw [createPage_of_absent hq]
      show mapLookup (mapSet s.cache (pageKey c u) s.nextId) k = some v
      rw [mapLookup_set_ne _ _ hk]
      exact h

theorem createPage_lookup_other {s : FactoryState} {k : String}
    (c u : String) (hk : k ≠ pageKey c u) :
    mapLookup (createPage c u s).2.cache k = mapLookup s.cache k := by
  cases hq : mapLookup s.cache (pageKey c u) with
  | some w => rw [createPage_of_present hq]
  | none =>
      rw [createPage_of_absent hq]
      exact mapLookup_set_ne _ _ hk

theorem wf_createPage {s : FactoryState} (c u : String) (hw : wf s) :
    wf (createPage c u s).2 := by
  cases hq : mapLookup s.cache (pageKey c u) with
  | some w => rw [createPage_of_present hq]; exact hw
  | none =>
      rw [createPage_of_absent hq]
      obtain ⟨hb, hkn, hvn⟩ := hw
      rw [wf, mapSet_append _ hq]
      refine ⟨?_, ?_, ?_⟩
      · intro e he
        rcases List.mem_append.mp he with he | he
        · exact Nat.lt_trans (hb e he) (Nat.lt_succ_self _)
        · simp at he
          subst he
          exact Nat.lt_succ_self _
      · rw [List.map_append, List.nodup_append]
        refine ⟨hkn, by simp, ?_⟩
        intro a ha hmem
        simp at hmem
        subst hmem
        exact lookup_none_not_mem_fst hq ha
      · rw [List.map_append, List.nodup_append]
        refine ⟨hvn, by simp, ?_⟩
        intro a ha hmem
        simp at hmem
        subst hmem
        rcases List.mem_map.mp ha with ⟨e, he, hes⟩
        have := hb e he
        omega

/-! ## Lemmas about the heap model -/

theorem heap_read_write_ne (h : Heap) {r₁ r₂ : Nat} (hr : r₁ ≠ r₂)
    (m : List (String × Nat)) : (h.write r₁ m).read r₂ = h.read r₂ := by
  simp [Heap.read, Heap.write, List.getD_eq_getElem?_getD,
    List.getElem?_set_ne hr]

theorem mutateAt_read_ne (h : Heap) {r₁ r₂ : Nat} (hr : r₁ ≠ r₂)
    (op : MapOp) : (mutateAt h r₁ op).read r₂ = h.read r₂ :=
  heap_read_write_ne h hr _

theorem mutateAll_read_ne (ops : List MapOp) : ∀ (h : Heap) {r₁ r₂ : Nat},
    r₁ ≠ r₂ → (mutateAll h r₁ ops).read r₂ = h.read r₂ := by
  induction ops with
  | nil => intro h r₁ r₂ _; rfl
  | cons op rest ih =>
      intro h r₁ r₂ hr
      show (mutateAll (mutateAt h r₁ op) r₁ rest).read r₂ = h.read r₂
      rw [ih _ hr, mutateAt_read_ne h hr]

theorem heap_read_append_lt (h : Heap) (l : List (List (String × Nat)))
    {r : Nat} (hr : r < h.maps.length) :
    (Heap.mk (h.maps ++ l)).read r = h.read r := by
  simp [Heap.read, List.getD_eq_getElem?_getD, List.getElem?_append, hr]

/-! ## Lemmas about the generators -/

theorem digit_facts : ∀ d : Nat, d < 10 →
    (toString d).data.length = 1 ∧ ∀ c ∈ (toString d).data, c.isDigit := by
  decide

theorem genAux_length (g : Nat → Nat) : ∀ (n i : Nat),
    (generateRandomNumberAux g i n).data.length = n := by
  intro n
  induction n with
  | zero => intro i; rfl
  | succ m ih =>
      intro i
      show (toString (g i % 10) ++ generateRandomNumberAux g (i + 1) m).data.length
        = m + 1
      rw [data_append, List.length_append, ih,
        (digit_facts _ (Nat.mod_lt _ (by decide))).1]
      omega

theorem genAux_digits (g : Nat → Nat) : ∀ (n i : Nat),
    ∀ c ∈ (generateRandomNumberAux g i n).data, c.isDigit := by
  intro n
  induction n with
  | zero => intro i c hc; cases hc
  | succ m ih =>
      intro i c hc
      rw [show generateRandomNumberAux g i (m + 1)
            = toString (g i % 10) ++ generateRandomNumberAux g (i + 1) m from rfl,
        data_append] at hc
      rcases List.mem_append.mp hc with h | h
      · exact (digit_facts _ (Nat.mod_lt _ (by decide))).2 c h
      · exact ih (i + 1) c h

theorem firstNames_facts : ∀ f ∈ firstNames,
    f ≠ "" ∧ cleanName f ≠ "" ∧ '@' ∉ (cleanName f).data := by
  decide

theorem lastNames_facts : ∀ l ∈ lastNames,
    l ≠ "" ∧ cleanName l ≠ "" ∧ '@' ∉ (cleanName l).data := by
  decide

theorem domains_facts : ∀ d ∈ domains, d ≠ "" ∧ '@' ∉ d.data := by
  decide

theorem generateFirstName_mem (r : Nat) : generateFirstName r ∈ firstNames := by
  have h : r % firstNames.length < firstNames.length :=
    Nat.mod_lt _ (by decide)
  rw [generateFirstName, List.getD_eq_getElem _ _ h]
  exact List.getElem_mem h

theorem generateLastName_mem (r : Nat) : generateLastName r ∈ lastNames := by
  have h : r % lastNames.length < lastNames.length :=
    Nat.mod_lt _ (by decide)
  rw [generateLastName, List.getD_eq_getElem _ _ h]
  exact List.getElem_mem h

theorem domain_mem (r : Nat) :
    domains.getD (r % domains.length) "" ∈ domains := by
  have h : r % domains.length < domains.length := Nat.mod_lt _ (by decide)
  rw [List.getD_eq_getElem _ _ h]
  exact List.getElem_mem h

theorem append_ne_empty_left {a : String} (b : String) (ha : a ≠ "") :
    a ++ b ≠ "" := by
  intro h
  have hd := congrArg String.data h
  rw [data_append] at hd
  rcases List.append_eq_nil.mp hd with ⟨h₁, _⟩
  exact ha (eq_of_data_eq h₁)

theorem generateEmail_shape {f l : String} (rd : Nat) (g : Nat → Nat)
    (hf : f ∈ firstNames) (hl : l ∈ lastNames) :
    emailShape (generateEmail rd g (some f) (some l)) := by
  obtain ⟨hf₁, hf₂, hf₃⟩ := firstNames_facts f hf
  obtain ⟨hl₁, hl₂, hl₃⟩ := lastNames_facts l hl
  obtain ⟨hd₁, hd₂⟩ := domains_facts _ (domain_mem rd)
  refine ⟨cleanName f ++ "." ++ cleanName l ++ generateRandomNumber g 3,
    domains.getD (rd % domains.length) "",
    ?_, hd₁, ?_, hd₂, ?_⟩
  · exact append_ne_empty_left _ (append_ne_empty_left _
      (append_ne_empty_left _ hf₂))
  · intro hmem
    rw [data_append, data_append, data_append] at hmem
    rcases List.mem_append.mp hmem with hmem | hmem
    · rcases List.mem_append.mp hmem with hmem | hmem
      · rcases List.mem_append.mp hmem with hmem | hmem
        · exact hf₃ hmem
        · exact absurd hmem (by decide)
      · exact hl₃ hmem
    · have := genAux_digits g 3 0 '@' hmem
      cases this
  · simp [generateEmail, hf₁, hl₁]

theorem contact_facts (g : Nat → Nat) :
    (generatePhilippineContactNumber g).data.length = 10 ∧
    (generatePhilippineContactNumber g).data.head? = some '9' ∧
    ∀ c ∈ (generatePhilippineContactNumber g).data, c.isDigit := by
  have hd : (generatePhilippineContactNumber g).data
      = '9' :: (generateRandomNumber g 9).data := rfl
  refine ⟨?_, ?_, ?_⟩
  · rw [hd, List.length_cons, show (generateRandomNumber g 9).data.length = 9
      from genAux_length g 9 0]
  · rw [hd]; rfl
  · rw [hd]
    intro c hc
    rcases List.mem_cons.mp hc with hc | hc
    · subst hc; decide
    · exact genAux_digits g 9 0 c hc

theorem jsOr_none (fb : String) : jsOr none fb = fb := rfl

theorem jsOr_some_ne {v : String} (fb : String) (hv : v ≠ "") :
    jsOr (some v) fb = v := by
  simp [jsOr, hv]

/-! ## Claim theorems -/

/-- C1: cache idempotence of the page-object factory. From any
well-formed factory state, calling `createPage` twice with the same
class and the same current URL returns the identical (reference-equal)
instance, and calling it with a different class at the same URL returns
a different instance, cached independently under its own key. -/
theorem c1_cache_idempotence (A B u : String) (s : FactoryState)
    (hw : wf s) (hAB : A ≠ B) :
    (createPage A u (createPage A u s).2).1 = (createPage A u s).1 ∧
    (createPage A u s).1.isSome ∧
    (createPage B u (createPage A u s).2).1.isSome ∧
    (createPage B u (createPage A u s).2).1 ≠ (createPage A u s).1 ∧
    mapLookup (createPage B u (createPage A u s).2).2.cache (pageKey A u) =
      (createPage A u s).1 ∧
    mapLookup (createPage B u (createPage A u s).2).2.cache (pageKey B u) =
      (createPage B u (createPage A u s).2).1 := by
  obtain ⟨a, ha⟩ := Option.isSome_iff_exists.mp (createPage_isSome A u s)
  have h₁ : mapLookup (createPage A u s).2.cache (pageKey A u) = some a := by
    rw [createPage_lookup]; exact ha
  obtain ⟨b, hb⟩ :=
    Option.isSome_iff_exists.mp (createPage_isSome B u (createPage A u s).2)
  have hkey : pageKey B u ≠ pageKey A u := fun h => hAB (pageKey_inj_class h).symm
  have h₂ : mapLookup (createPage B u (createPage A u s).2).2.cache (pageKey B u)
      = some b := by
    rw [createPage_lookup]; exact hb
  have h₃ : mapLookup (createPage B u (createPage A u s).2).2.cache (pageKey A u)
      = some a := createPage_preserves B u h₁
  have hwf₂ : wf (createPage B u (createPage A u s).2).2 :=
    wf_createPage B u (wf_createPage A u hw)
  refine ⟨?_, ?_, ?_, ?_, ?_, ?_⟩
  · rw [createPage_of_present h₁, ha]
  · rw [ha]; rfl
  · rw [hb]; rfl
  · rw [hb, ha]
    intro h
    have hba : b = a := by injection h
    exact wf_lookup_inj hwf₂ h₂ h₃ hkey hba
  · rw [h₃, ha]
  · exact createPage_lookup B u (createPage A u s).2

/-- C1 witness: concrete run from the empty cache. -/
theorem c1_witness :
    wf ⟨[], 0⟩ ∧ ("LoginPage" : String) ≠ "DashboardPage" ∧
    (createPage "LoginPage" "https://ebms/login"
        (createPage "LoginPage" "https://ebms/login" ⟨[], 0⟩).2).1 =
      (createPage "LoginPage" "https://ebms/login" ⟨[], 0⟩).1 ∧
    (createPage "DashboardPage" "https://ebms/login"
        (createPage "LoginPage" "https://ebms/login" ⟨[], 0⟩).2).1 ≠
      (createPage "LoginPage" "https://ebms/login" ⟨[], 0⟩).1 :=
  ⟨by decide, by decide,
    (c1_cache_idempotence "LoginPage" "DashboardPage" "https://ebms/login"
      ⟨[], 0⟩ (by decide) (by decide)).1,
    (c1_cache_idempotence "LoginPage" "DashboardPage" "https://ebms/login"
      ⟨[], 0⟩ (by decide) (by decide)).2.2.2.1⟩

/-- C2: the cache key is the class name, a dash, and the current URL; no
`createPage` call ever removes an existing entry; and when the page has
navigated (so the URL, hence the key, changed and the new key is not yet
cached) a fresh instance is created and cached alongside the old one. -/
theorem c2_key_derivation_no_eviction (c u₁ u₂ : String) (s : FactoryState)
    (hw : wf s) (hu : u₁ ≠ u₂)
    (hnew : mapLookup s.cache (pageKey c u₂) = none) :
    pageKey c u₁ = c ++ "-" ++ u₁ ∧
    (∀ (s' : FactoryState) (c' u' k : String) (v : Nat),
      mapLookup s'.cache k = some v →
      mapLookup (createPage c' u' s').2.cache k = some v) ∧
    (createPage c u₂ (createPage c u₁ s).2).1 =
      some (createPage c u₁ s).2.nextId ∧
    mapLookup (createPage c u₂ (createPage c u₁ s).2).2.cache (pageKey c u₁) =
      (createPage c u₁ s).1 ∧
    mapLookup (createPage c u₂ (createPage c u₁ s).2).2.cache (pageKey c u₂) =
      (createPage c u₂ (createPage c u₁ s).2).1 ∧
    (createPage c u₂ (createPage c u₁ s).2).1 ≠ (createPage c u₁ s).1 := by
  have hkey : pageKey c u₂ ≠ pageKey c u₁ := fun h => hu (pageKey_inj_url h).symm
  have hnone₁ : mapLookup (createPage c u₁ s).2.cache (pageKey c u₂) = none := by
    rw [createPage_lookup_other c u₁ hkey]; exact hnew
  obtain ⟨a, ha⟩ := Option.isSome_iff_exists.mp (createPage_isSome c u₁ s)
  have h₁ : mapLookup (createPage c u₁ s).2.cache (pageKey c u₁) = some a := by
    rw [createPage_lookup]; exact ha
  have ha_lt : a < (createPage c u₁ s).2.nextId :=
    wf_lookup_lt (wf_createPage c u₁ hw) h₁
  refine ⟨rfl, ?_, ?_, ?_, ?_, ?_⟩
  · intro s' c' u' k v hv; exact createPage_preserves c' u' hv
  · rw [createPage_of_absent hnone₁]
  · rw [ha]; exact createPage_preserves c u₂ h₁
  · exact createPage_lookup c u₂ (createPage c u₁ s).2
  · rw [createPage_of_absent hnone₁, ha]
    intro h
    have : (createPage c u₁ s).2.nextId = a := by injection h
    omega

/-- C2 witness: concrete navigation scenario from the empty cache. -/
theorem c2_witness :
    wf ⟨[], 0⟩ ∧ ("https://ebms/login" : String) ≠ "https://ebms/dashboard" ∧
    mapLookup (FactoryState.cache ⟨[], 0⟩)
      (pageKey "LoginPage" "https://ebms/dashboard") = none ∧
    (createPage "LoginPage" "https://ebms/dashboard"
        (createPage "LoginPage" "https://ebms/login" ⟨[], 0⟩).2).1 ≠
      (createPage "LoginPage" "https://ebms/login" ⟨[], 0⟩).1 :=
  ⟨by decide, by decide, by decide,
    (c2_key_derivation_no_eviction "LoginPage" "https://ebms/login"
      "https://ebms/dashboard" ⟨[], 0⟩ (by decide) (by decide)
      (by decide)).2.2.2.2.2⟩

/-- C3: after `clearCache`, a `createPage` call for a previously cached
(class, URL) key returns a freshly constructed instance, not
reference-equal to the pre-clear one. -/
theorem c3_clear_effectiveness (c u : String) (s : FactoryState) (i : Nat)
    (hw : wf s) (hc : mapLookup s.cache (pageKey c u) = some i) :
    (createPage c u (clearCache s)).1 = some s.nextId ∧
    (createPage c u (clearCache s)).1 ≠ some i := by
  have hnone : mapLookup (clearCache s).cache (pageKey c u) = none := rfl
  have hi : i < s.nextId := wf_lookup_lt hw hc
  rw [createPage_of_absent hnone]
  refine ⟨rfl, ?_⟩
  intro h
  have h₂ : s.nextId = i := by injection h
  omega

/-- C3 witness: one cached entry, cleared, re-created. -/
theorem c3_witness :
    wf ⟨[(pageKey "LoginPage" "https://ebms/login", 0)], 1⟩ ∧
    mapLookup (FactoryState.cache
        ⟨[(pageKey "LoginPage" "https://ebms/login", 0)], 1⟩)
      (pageKey "LoginPage" "https://ebms/login") = some 0 ∧
    (createPage "LoginPage" "https://ebms/login"
      (clearCache ⟨[(pageKey "LoginPage" "https://ebms/login", 0)], 1⟩)).1
      ≠ some 0 :=
  ⟨by decide, by decide,
    (c3_clear_effectiveness "LoginPage" "https://ebms/login"
      ⟨[(pageKey "LoginPage" "https://ebms/login", 0)], 1⟩ 0
      (by decide) (by decide)).2⟩

/-- C9: `getCachedInstances` returns a fresh copy of the internal map:
the copy initially has the same entries, and no sequence of `set`/
`delete` mutations applied to it changes the factory's internal map, so
subsequent `createPage` calls behave as if the copy had never been
touched. -/
theorem c9_snapshot_isolation (h : Heap) (rInt : Nat) (ops : List MapOp)
    (hr : rInt < h.maps.length) :
    (getCachedInstances h rInt).2.read (getCachedInstances h rInt).1 =
      h.read rInt ∧
    (mutateAll (getCachedInstances h rInt).2 (getCachedInstances h rInt).1
        ops).read rInt = h.read rInt ∧
    ∀ (c u : String) (n : Nat),
      createPage c u ⟨(mutateAll (getCachedInstances h rInt).2
          (getCachedInstances h rInt).1 ops).read rInt, n⟩ =
        createPage c u ⟨h.read rInt, n⟩ := by
  have hne : (getCachedInstances h rInt).1 ≠ rInt := by
    show h.maps.length ≠ rInt
    omega
  have hsnap : (getCachedInstances h rInt).2.read (getCachedInstances h rInt).1
      = h.read rInt := by
    show (Heap.mk (h.maps ++ [h.read rInt])).read h.maps.length = h.read rInt
    simp [Heap.read, List.getD_eq_getElem?_getD, List.getElem?_append]
  have hmut : (mutateAll (getCachedInstances h rInt).2
      (getCachedInstances h rInt).1 ops).read rInt = h.read rInt := by
    rw [mutateAll_read_ne ops _ hne]
    exact heap_read_append_lt h _ hr
  exact ⟨hsnap, hmut, fun c u n => by rw [hmut]⟩

/-- C9 witness: deleting the copied entry and adding a new one leaves
the internal map intact. -/
theorem c9_witness :
    0 < (Heap.mk [[(pageKey "LoginPage" "https://ebms/login", 0)]]).maps.length ∧
    (mutateAll (getCachedInstances ⟨[[(pageKey "LoginPage" "https://ebms/login", 0)]]⟩ 0).2
        (getCachedInstances ⟨[[(pageKey "LoginPage" "https://ebms/login", 0)]]⟩ 0).1
        [MapOp.del (pageKey "LoginPage" "https://ebms/login"), MapOp.set "X" 7]).read 0
      = Heap.read ⟨[[(pageKey "LoginPage" "https://ebms/login", 0)]]⟩ 0 :=
  ⟨by decide,
    (c9_snapshot_isolation ⟨[[(pageKey "LoginPage" "https://ebms/login", 0)]]⟩ 0
      [MapOp.del (pageKey "LoginPage" "https://ebms/login"), MapOp.set "X" 7]
      (by decide)).2.1⟩

/-- C4: every synthetic user record produced by `generateUserData` with
no overrides has an email of `local@domain` shape, a contact number of
exactly ten digits starting with `'9'`, and non-empty first and last
names drawn from the fixed candidate pools. -/
theorem c4_generator_validity (rng : Rng) :
    emailShape (generateUserData rng none).email ∧
    (generateUserData rng none).contactNumber.data.length = 10 ∧
    (generateUserData rng none).contactNumber.data.head? = some '9' ∧
    (∀ ch ∈ (generateUserData rng none).contactNumber.data, ch.isDigit) ∧
    (generateUserData rng none).firstName ≠ "" ∧
    (generateUserData rng none).firstName ∈ firstNames ∧
    (generateUserData rng none).lastName ≠ "" ∧
    (generateUserData rng none).lastName ∈ lastNames := by
  have e₁ : (generateUserData rng none).firstName
      = generateFirstName rng.rFirst := rfl
  have e₂ : (generateUserData rng none).lastName
      = generateLastName rng.rLast := rfl
  have e₃ : (generateUserData rng none).email
      = generateEmail rng.rDomain rng.gEmail
          (some (generateFirstName rng.rFirst))
          (some (generateLastName rng.rLast)) := rfl
  have e₄ : (generateUserData rng none).contactNumber
      = generatePhilippineContactNumber rng.gContact := rfl
  obtain ⟨hc₁, hc₂, hc₃⟩ := contact_facts rng.gContact
  refine ⟨?_, ?_, ?_, ?_, ?_, ?_, ?_, ?_⟩
  · rw [e₃]
    exact generateEmail_shape _ _ (generateFirstName_mem _)
      (generateLastName_mem _)
  · rw [e₄]; exact hc₁
  · rw [e₄]; exact hc₂
  · rw [e₄]; exact hc₃
  · rw [e₁]; exact (firstNames_facts _ (generateFirstName_mem _)).1
  · rw [e₁]; exact generateFirstName_mem _
  · rw [e₂]; exact (lastNames_facts _ (generateLastName_mem _)).1
  · rw [e₂]; exact generateLastName_mem _

/-- C5 counterexample: the claim says fields present in the override
replace the generated ones, but an override whose `firstName` is present
with value `""` is falsy under `||` and does not replace: the record
keeps a generated name instead of the overridden empty string. -/
theorem c5_counterexample :
    (generateUserData rngZero
        (some ⟨some "", none, none, none, none, none⟩)).firstName = "John" ∧
    (generateUserData rngZero
        (some ⟨some "", none, none, none, none, none⟩)).firstName ≠ "" := by
  constructor
  · decide
  · decide

/-- C5 (amended): an override `{email: "x@y.com"}` yields exactly that
email with all other fields non-empty generated values and `userStatus`
defaulting to `Active`; in general a field present in the override with
a non-empty (truthy) value replaces the generated one, while an
empty-string override falls back to the generated value
(`permissionGroup` is passed through verbatim, with no fallback). -/
theorem c5_override_precedence (rng : Rng) (o : UserOverrides)
    (h₁ : o.email = some "x@y.com") (h₂ : o.firstName = none)
    (h₃ : o.lastName = none) (h₄ : o.contactNumber = none)
    (h₅ : o.userStatus = none) :
    (generateUserData rng (some o)).email = "x@y.com" ∧
    (generateUserData rng (some o)).firstName ∈ firstNames ∧
    (generateUserData rng (some o)).firstName ≠ "" ∧
    (generateUserData rng (some o)).lastName ∈ lastNames ∧
    (generateUserData rng (some o)).lastName ≠ "" ∧
    (generateUserData rng (some o)).contactNumber.data.length = 10 ∧
    (generateUserData rng (some o)).userStatus = some "Active" ∧
    (∀ (o' : UserOverrides) (v : String), o'.firstName = some v → v ≠ "" →
      (generateUserData rng (some o')).firstName = v) ∧
    (∀ (o' : UserOverrides) (v : String), o'.lastName = some v → v ≠ "" →
      (generateUserData rng (some o')).lastName = v) ∧
    (∀ (o' : UserOverrides) (v : String), o'.email = some v → v ≠ "" →
      (generateUserData rng (some o')).email = v) ∧
    (∀ (o' : UserOverrides) (v : String), o'.contactNumber = some v → v ≠ "" →
      (generateUserData rng (some o')).contactNumber = v) ∧
    (∀ (o' : UserOverrides) (v : String), o'.userStatus = some v → v ≠ "" →
      (generateUserData rng (some o')).userStatus = some v) ∧
    (∀ (o' : UserOverrides) (v : String), o'.permissionGroup = some v →
      (generateUserData rng (some o')).permissionGroup = some v) := by
  have fFirst : ∀ o' : UserOverrides, (generateUserData rng (some o')).firstName
      = jsOr o'.firstName (generateFirstName rng.rFirst) := fun _ => rfl
  have fLast : ∀ o' : UserOverrides, (generateUserData rng (some o')).lastName
      = jsOr o'.lastName (generateLastName rng.rLast) := fun _ => rfl
  have fEmail : ∀ o' : UserOverrides, (generateUserData rng (some o')).email
      = jsOr o'.email (generateEmail rng.rDomain rng.gEmail
          (some (jsOr o'.firstName (generateFirstName rng.rFirst)))
          (some (jsOr o'.lastName (generateLastName rng.rLast)))) :=
    fun _ => rfl
  have fContact : ∀ o' : UserOverrides,
      (generateUserData rng (some o')).contactNumber
      = jsOr o'.contactNumber (generatePhilippineContactNumber rng.gContact) :=
    fun _ => rfl
  have fStatus : ∀ o' : UserOverrides, (generateUserData rng (some o')).userStatus
      = some (jsOr o'.userStatus "Active") := fun _ => rfl
  have fPerm : ∀ o' : UserOverrides,
      (generateUserData rng (some o')).permissionGroup = o'.permissionGroup :=
    fun _ => rfl
  refine ⟨?_, ?_, ?_, ?_, ?_, ?_, ?_, ?_, ?_, ?_, ?_, ?_, ?_⟩
  · rw [fEmail, h₁]; exact jsOr_some_ne _ (by decide)
  · rw [fFirst, h₂, jsOr_none]; exact generateFirstName_mem _
  · rw [fFirst, h₂, jsOr_none]
    exact (firstNames_facts _ (generateFirstName_mem _)).1
  · rw [fLast, h₃, jsOr_none]; exact generateLastName_mem _
  · rw [fLast, h₃, jsOr_none]
    exact (lastNames_facts _ (generateLastName_mem _)).1
  · rw [fContact, h₄, jsOr_none]; exact (contact_facts rng.gContact).1
  · rw [fStatus, h₅, jsOr_none]
  · intro o' v hv hne; rw [fFirst, hv]; exact jsOr_some_ne _ hne
  · intro o' v hv hne; rw [fLast, hv]; exact jsOr_some_ne _ hne
  · intro o' v hv hne; rw [fEmail, hv]; exact jsOr_some_ne _ hne
  · intro o' v hv hne; rw [fContact, hv]; exact jsOr_some_ne _ hne
  · intro o' v hv hne; rw [fStatus, hv, jsOr_some_ne _ hne]
  · intro o' v hv; rw [fPerm, hv]

/-- C5 witness: the concrete `{email: "x@y.com"}` override. -/
theorem c5_witness :
    (generateUserData rngZero
        (some ⟨none, none, some "x@y.com", none, none, none⟩)).email
      = "x@y.com" ∧
    (generateUserData rngZero
        (some ⟨none, none, some "x@y.com", none, none, none⟩)).userStatus
      = some "Active" :=
  ⟨(c5_override_precedence rngZero ⟨none, none, some "x@y.com", none, none, none⟩
      rfl rfl rfl rfl rfl).1,
    (c5_override_precedence rngZero ⟨none, none, some "x@y.com", none, none, none⟩
      rfl rfl rfl rfl rfl).2.2.2.2.2.2.1⟩

/-- C6: `BasePage.isElementVisible` is a total boolean check: it runs
the visibility expectation with the fixed 1000 ms timeout, returns
`true` exactly when the element becomes visible within that timeout,
and converts any rejection of the underlying check into `false` instead
of propagating it. -/
theorem c6_soft_visibility (visibleAt : Option Nat) :
    (isElementVisible visibleAt = true ↔
      ∃ t, visibleAt = some t ∧ t ≤ 1000) ∧
    (∀ e, isElementVisibleBody visibleAt = .error e →
      isElementVisible visibleAt = false) := by
  constructor
  · cases visibleAt with
    | none =>
        simp [isElementVisible, isElementVisibleBody, expectToBeVisible,
          Except.map]
    | some t =>
        by_cases ht : t ≤ 1000 <;>
          simp [isElementVisible, isElementVisibleBody, expectToBeVisible,
            Except.map, ht]
  · intro e he
    simp [isElementVisible, he]

/-- C6 witness: a concretely visible element and a concretely failing
check. -/
theorem c6_witness :
    isElementVisible (some 500) = true ∧ isElementVisible none = false :=
  ⟨(c6_soft_visibility (some 500)).1.mpr ⟨500, rfl, by decide⟩,
    (c6_soft_visibility none).2 "TimeoutError" rfl⟩

/-- C7: in the `authenticatedPage` fixture, if `loginUser` completes but
the `isUserLoggedIn` check finds no logged-in signal, setup throws
`Failed to authenticate user before test` and the test body never
runs. -/
theorem c7_auth_setup_failure (loginOutcome emailSignal bodyOutcome :
      Except String Unit) (env : LogoutEnv)
    (hlogin : loginOutcome = .ok ())
    (hsig : isUserLoggedIn emailSignal = false) :
    (authenticatedPageFixture loginOutcome emailSignal bodyOutcome env).bodyRan
      = false ∧
    (authenticatedPageFixture loginOutcome emailSignal bodyOutcome env).outcome
      = .error authFailMsg := by
  subst hlogin
  simp [authenticatedPageFixture, hsig]

/-- C7 witness: login completes, the logged-in email signal is absent. -/
theorem c7_witness :
    isUserLoggedIn (.error "signal absent") = false ∧
    (authenticatedPageFixture (.ok ()) (.error "signal absent") (.ok ())
        ⟨.ok false, .ok (), .ok ()⟩).bodyRan = false ∧
    (authenticatedPageFixture (.ok ()) (.error "signal absent") (.ok ())
        ⟨.ok false, .ok (), .ok ()⟩).outcome = .error authFailMsg :=
  ⟨rfl,
    (c7_auth_setup_failure (.ok ()) (.error "signal absent") (.ok ())
      ⟨.ok false, .ok (), .ok ()⟩ rfl rfl).1,
    (c7_auth_setup_failure (.ok ()) (.error "signal absent") (.ok ())
      ⟨.ok false, .ok (), .ok ()⟩ rfl rfl).2⟩

/-- C8: `logoutUser` never propagates an exception: a successful body
logs nothing, any failure of the body is caught and logged as a single
warning, and in the authenticated fixture the teardown never alters the
test body's outcome. -/
theorem c8_best_effort_teardown (env : LogoutEnv)
    (loginOutcome emailSignal bodyOutcome : Except String Unit) :
    (logoutBody env = .ok () → logoutUser env = []) ∧
    (∀ e, logoutBody env = .error e →
      logoutUser env = ["Logout failed or user was not logged in: " ++ e]) ∧
    (isUserLoggedIn emailSignal = true → loginOutcome = .ok () →
      (authenticatedPageFixture loginOutcome emailSignal bodyOutcome env).outcome
        = bodyOutcome ∧
      (authenticatedPageFixture loginOutcome emailSignal bodyOutcome env).warnings
        = logoutUser env) := by
  refine ⟨?_, ?_, ?_⟩
  · intro h; simp [logoutUser, h]
  · intro e h; simp [logoutUser, h]
  · intro hs hl
    subst hl
    constructor <;> simp [authenticatedPageFixture, hs]

/-- C8 witness: a logout whose click fails is converted into a warning,
and a failing test body's outcome is untouched by teardown. -/
theorem c8_witness :
    logoutBody ⟨.ok true, .error "click failed", .ok ()⟩
      = .error "click failed" ∧
    logoutUser ⟨.ok true, .error "click failed", .ok ()⟩
      = ["Logout failed or user was not logged in: " ++ "click failed"] ∧
    (authenticatedPageFixture (.ok ()) (.ok ()) (.error "assertion failed")
        ⟨.ok true, .error "click failed", .ok ()⟩).outcome
      = .error "assertion failed" :=
  ⟨rfl,
    (c8_best_effort_teardown ⟨.ok true, .error "click failed", .ok ()⟩
      (.ok ()) (.ok ()) (.error "assertion failed")).2.1 "click failed" rfl,
    ((c8_best_effort_teardown ⟨.ok true, .error "click failed", .ok ()⟩
      (.ok ()) (.ok ()) (.error "assertion failed")).2.2 rfl rfl).1⟩

/-- C10: `toggleRememberMe(checked)` leaves the checkbox in exactly the
requested state, clicks only when the current state differs from the
desired one, and a second call with the same argument is a no-op, so
two calls are equivalent to one. -/
theorem c10_toggle_postcondition (checked st : Bool) :
    (toggleRememberMe checked st).1 = checked ∧
    (toggleRememberMe checked st).2 = (st != checked) ∧
    toggleRememberMe checked (toggleRememberMe checked st).1
      = (checked, false) ∧
    (toggleRememberMe checked (toggleRememberMe checked st).1).1
      = (toggleRememberMe checked st).1 := by
  cases checked <;> cases st <;> decide

end EBMS
